import Mathlib

/-!
Verification of the conversation-context core of the deepseek console/web
application.  The definitions below are shallow embeddings of the Python
source: `deepseek_console_app/core/session.py` (ChatSession),
`deepseek_console_app/token_counter.py` (count_text_tokens),
`deepseek_console_app/client.py` (DeepSeekClient.stream_message), and
`deepseek_chat/agents/strategies.py` together with
`deepseek_chat/agents/general_agent.py` (context strategies and the turn
loop).  Lists model Python lists, `Nat`/`Int` model Python integers, and
rationals model Python floats where cost arithmetic appears.
-/

set_option maxHeartbeats 1000000

/-- Python slice `xs[-n:]` for a non-negative `n`.  Note the Python quirk:
`xs[-0:]` is `xs[0:]`, the whole list, so `n = 0` keeps everything. -/
def pyTakeLast {α : Type} (n : Nat) (xs : List α) : List α :=
  if n = 0 then xs else xs.drop (xs.length - n)

/-- Embeds `ChatSession._trim` from `deepseek_console_app/core/session.py`:
`if len(self._messages) > self._max_messages: self._messages = self._messages[-self._max_messages:]`. -/
def listTrim {α : Type} (maxMessages : Nat) (xs : List α) : List α :=
  if maxMessages < xs.length then pyTakeLast maxMessages xs else xs

/-- Python whitespace test used by `str.strip()` (ASCII subset actually
produced by the code paths modelled here). -/
def pyIsSpace (c : Char) : Bool :=
  c = ' ' || c = '\t' || c = '\n' || c = '\r' || c = Char.ofNat 11 || c = Char.ofNat 12

/-- Python `str.strip()`: remove leading and trailing whitespace. -/
def pyStrip (s : String) : String :=
  String.mk (((s.toList.dropWhile pyIsSpace).reverse.dropWhile pyIsSpace).reverse)

/-- Python `str.strip(c)` for a single character `c`: remove leading and
trailing occurrences of `c`. -/
def pyStripChar (c : Char) (s : String) : String :=
  String.mk (((s.toList.dropWhile (· = c)).reverse.dropWhile (· = c)).reverse)

/-- One chat message, the dict `{"role": ..., "content": ...}` of the source. -/
structure Message where
  role : String
  content : String
deriving DecidableEq

/-- Embeds the `ChatSession` class of `deepseek_console_app/core/session.py`:
a message list, the `_max_messages` bound and the running `summary`. -/
structure ChatSession where
  messages : List Message
  maxMessages : Nat
  summary : String
deriving DecidableEq

/-- Embeds `ChatSession.__init__(max_messages)`: empty history, empty summary. -/
def ChatSession.new (maxMessages : Nat) : ChatSession :=
  { messages := [], maxMessages := maxMessages, summary := "" }

/-- Embeds `ChatSession.add_user`: append a user message, then `_trim`. -/
def ChatSession.addUser (s : ChatSession) (content : String) : ChatSession :=
  { s with messages := listTrim s.maxMessages (s.messages ++ [⟨"user", content⟩]) }

/-- Embeds `ChatSession.add_assistant`: append an assistant message, then `_trim`. -/
def ChatSession.addAssistant (s : ChatSession) (content : String) : ChatSession :=
  { s with messages := listTrim s.maxMessages (s.messages ++ [⟨"assistant", content⟩]) }

/-- Embeds `ChatSession.clear`. -/
def ChatSession.clear (s : ChatSession) : ChatSession :=
  { s with messages := [], summary := "" }

/-- Embeds `ChatSession.apply_compression(new_summary, keep_count)`:
the summary is assigned unconditionally; the messages are cut to the slice
`self._messages[-keep_count:]` when `keep_count > 0` and emptied otherwise. -/
def ChatSession.applyCompression (s : ChatSession) (newSummary : String)
    (keepCount : Nat) : ChatSession :=
  { s with summary := newSummary,
           messages := if 0 < keepCount then pyTakeLast keepCount s.messages else [] }

/-- One call of the mutation sequence quantified over in the capacity claim:
either `add_user` or `add_assistant` with some content. -/
inductive AddCall where
  | user (content : String)
  | assistant (content : String)
deriving DecidableEq

/-- The message a call appends. -/
def AddCall.toMessage : AddCall → Message
  | .user c => ⟨"user", c⟩
  | .assistant c => ⟨"assistant", c⟩

/-- Runs one `add_user`/`add_assistant` call on a session. -/
def runAddCall (s : ChatSession) : AddCall → ChatSession
  | .user c => s.addUser c
  | .assistant c => s.addAssistant c

/-- Runs a finite sequence of `add_user`/`add_assistant` calls. -/
def applyAdds (s : ChatSession) (calls : List AddCall) : ChatSession :=
  calls.foldl runAddCall s

theorem applyAdds_concat (s : ChatSession) (cs : List AddCall) (c : AddCall) :
    applyAdds s (cs ++ [c]) = runAddCall (applyAdds s cs) c := by
  simp [applyAdds, List.foldl_append]

theorem runAddCall_maxMessages (s : ChatSession) (c : AddCall) :
    (runAddCall s c).maxMessages = s.maxMessages := by
  cases c <;> rfl

theorem pyTakeLast_pos {α : Type} (n : Nat) (hn : n ≠ 0) (xs : List α) :
    pyTakeLast n xs = xs.drop (xs.length - n) := by
  simp [pyTakeLast, hn]

/-- Key step of the capacity invariant: adding one message to a trailing
slice of a log yields the trailing slice of the extended log, provided the
capacity is at least one. -/
theorem listTrim_step (m : Nat) (hm : 1 ≤ m) (L : List Message) (msg : Message) :
    listTrim m (L.drop (L.length - m) ++ [msg]) =
      (L ++ [msg]).drop (L.length + 1 - m) := by
  have hm0 : m ≠ 0 := Nat.one_le_iff_ne_zero.mp hm
  by_cases hk : L.length < m
  · -- the old log fits strictly below capacity: no trimming happens
    have h0 : L.length - m = 0 := Nat.sub_eq_zero_of_le (Nat.le_of_lt hk)
    have h1 : L.length + 1 - m = 0 := Nat.sub_eq_zero_of_le hk
    rw [h0, h1]
    simp only [List.drop_zero, listTrim]
    have hlen : ¬ m < (L ++ [msg]).length := by
      simp only [List.length_append, List.length_cons, List.length_nil]
      omega
    rw [if_neg hlen]
  · -- the old trailing slice already has exactly m entries
    have hmk : m ≤ L.length := Nat.le_of_not_lt hk
    have hdroplen : (L.drop (L.length - m)).length = m := by
      rw [List.length_drop]; omega
    have htrim : m < (L.drop (L.length - m) ++ [msg]).length := by
      rw [List.length_append, hdroplen]; simp
    rw [listTrim, if_pos htrim, pyTakeLast_pos m hm0]
    rw [List.length_append, hdroplen]
    have h2 : m + [msg].length - m = 1 := by simp
    rw [h2]
    have h3 : (1 : Nat) ≤ (L.drop (L.length - m)).length := by omega
    rw [List.drop_append_of_le_length h3, List.drop_drop]
    have h4 : L.length + 1 - m ≤ L.length := by omega
    rw [List.drop_append_of_le_length h4]
    congr 2
    omega

/-- Main capacity lemma: starting from an empty session of capacity `m ≥ 1`,
any sequence of add calls leaves exactly the trailing slice of the appended
message sequence in the session, and the capacity field is preserved. -/
theorem applyAdds_messages (m : Nat) (hm : 1 ≤ m) (calls : List AddCall) :
    (applyAdds (ChatSession.new m) calls).messages =
      (calls.map AddCall.toMessage).drop (calls.length - m) ∧
    (applyAdds (ChatSession.new m) calls).maxMessages = m := by
  induction calls using List.reverseRecOn with
  | nil => simp [applyAdds, ChatSession.new]
  | append_singleton cs c ih =>
    obtain ⟨ihmsg, ihmax⟩ := ih
    rw [applyAdds_concat]
    constructor
    · have hrun : (runAddCall (applyAdds (ChatSession.new m) cs) c).messages =
          listTrim m ((applyAdds (ChatSession.new m) cs).messages ++ [c.toMessage]) := by
        cases c <;>
          simp [runAddCall, ChatSession.addUser, ChatSession.addAssistant,
                AddCall.toMessage, ihmax]
      rw [hrun, ihmsg]
      have := listTrim_step m hm (cs.map AddCall.toMessage) c.toMessage
      rw [List.length_map] at this
      rw [this]
      simp [List.length_append]
    · rw [runAddCall_maxMessages]
      exact ihmax

/-- C1 counterexample input: a session of capacity 0. -/
def c1Session0 : ChatSession := ChatSession.new 0

/-- C1: the claim quantifies over every capacity, but with `max_messages = 0`
the Python slice `self._messages[-0:]` keeps the whole list, so one
`add_user` call already leaves more messages than the capacity. -/
theorem c1_capacity_counterexample :
    ¬ ((c1Session0.addUser "a").messages.length ≤ c1Session0.maxMessages) := by
  decide

/-- C1 (amended): for every capacity `max_messages ≥ 1` and every finite
sequence of `add_user`/`add_assistant` calls on a fresh session, the retained
message list is exactly the trailing slice of the appended sequence, hence its
length never exceeds `max_messages`; instantiating the sequence at each prefix
gives the bound after every call. -/
theorem c1_capacity_invariant (m : Nat) (hm : 1 ≤ m) (calls : List AddCall) :
    (applyAdds (ChatSession.new m) calls).messages =
      (calls.map AddCall.toMessage).drop (calls.length - m) ∧
    (applyAdds (ChatSession.new m) calls).messages.length ≤ m := by
  obtain ⟨hmsg, _⟩ := applyAdds_messages m hm calls
  refine ⟨hmsg, ?_⟩
  rw [hmsg, List.length_drop, List.length_map]
  omega

/-- C1 witness: capacity 2 with three appended calls keeps the last two. -/
theorem c1_capacity_invariant_witness :
    (applyAdds (ChatSession.new 2) [.user "a", .assistant "b", .user "c"]).messages =
      (([AddCall.user "a", .assistant "b", .user "c"].map AddCall.toMessage)).drop
        ([AddCall.user "a", .assistant "b", .user "c"].length - 2) ∧
    (applyAdds (ChatSession.new 2) [.user "a", .assistant "b", .user "c"]).messages.length ≤ 2 :=
  c1_capacity_invariant 2 (by decide) [.user "a", .assistant "b", .user "c"]

/-- C2 counterexample input: three stored turns and a prior summary. -/
def c2Session : ChatSession :=
  { messages := [⟨"user", "q1"⟩, ⟨"assistant", "a1"⟩, ⟨"user", "q2"⟩],
    maxMessages := 40, summary := "old" }

/-- C2: `apply_compression` is not a no-op below the keep bound, because it
assigns `self.summary = new_summary` unconditionally; with 3 turns and
`keep_count = 5` the turns survive but the summary becomes the new text. -/
theorem c2_applyCompression_counterexample :
    ¬ (c2Session.applyCompression "X" 5 = c2Session) := by
  decide

/-- C2 (amended): with `len(turns) ≤ keep_count` and `keep_count > 0`,
`apply_compression(new_summary, keep_count)` leaves the turns unchanged but
always replaces the stored summary with `new_summary`; the full no-op below
the keep bound is enforced only by the caller `_compress_history`, which
returns before ever calling `apply_compression`. -/
theorem c2_applyCompression_below_keep (s : ChatSession) (newSummary : String)
    (keepCount : Nat) (hk : 0 < keepCount) (hlen : s.messages.length ≤ keepCount) :
    (s.applyCompression newSummary keepCount).messages = s.messages ∧
    (s.applyCompression newSummary keepCount).summary = newSummary := by
  refine ⟨?_, rfl⟩
  simp only [ChatSession.applyCompression, if_pos hk]
  rw [pyTakeLast_pos keepCount (Nat.pos_iff_ne_zero.mp hk)]
  have h0 : s.messages.length - keepCount = 0 := Nat.sub_eq_zero_of_le hlen
  rw [h0, List.drop_zero]

/-- C2 witness: the exact spec scenario, 3 turns and keep_count 5. -/
theorem c2_applyCompression_below_keep_witness :
    (c2Session.applyCompression "X" 5).messages = c2Session.messages ∧
    (c2Session.applyCompression "X" 5).summary = "X" :=
  c2_applyCompression_below_keep c2Session "X" 5 (by decide) (by decide)

/-- Modelled from the spec: the class `deepseek_chat.core.session.ChatSession`
is not under src (only its callers in `deepseek_chat/agents` and
`deepseek_chat/web` are).  Per spec section 3 it is the conversation history
with `turns`, `summary`, `facts` and a capacity bound; every operation below
mirrors the in-src `deepseek_console_app/core/session.py` variant, extended
with the `facts` text field read and written by the strategies. -/
structure ChatSessionX where
  messages : List Message
  maxMessages : Nat
  summary : String
  facts : String
deriving DecidableEq

/-- Modelled from the spec: `add_user` of the missing deepseek_chat session,
matching the in-src console variant (append then trim). -/
def ChatSessionX.addUser (s : ChatSessionX) (content : String) : ChatSessionX :=
  { s with messages := listTrim s.maxMessages (s.messages ++ [⟨"user", content⟩]) }

/-- Modelled from the spec: `add_assistant` of the missing deepseek_chat
session, matching the in-src console variant. -/
def ChatSessionX.addAssistant (s : ChatSessionX) (content : String) : ChatSessionX :=
  { s with messages := listTrim s.maxMessages (s.messages ++ [⟨"assistant", content⟩]) }

/-- Modelled from the spec: `apply_compression` of the missing deepseek_chat
session, matching the in-src console variant (summary replaced, turns cut to
the trailing `keep_count` slice). -/
def ChatSessionX.applyCompression (s : ChatSessionX) (newSummary : String)
    (keepCount : Nat) : ChatSessionX :=
  { s with summary := newSummary,
           messages := if 0 < keepCount then pyTakeLast keepCount s.messages else [] }

/-- Compression settings read from `config` by the deepseek_chat agent code. -/
structure AgentConfig where
  compressionEnabled : Bool
  compressionThreshold : Nat
  compressionKeep : Nat
deriving DecidableEq

/-- Outcome of one streaming transport call: either the full chunk list of a
call that completes, or the chunks delivered before the transport raises. -/
inductive CallOutcome where
  | ok (chunks : List String)
  | err (partialChunks : List String)
deriving DecidableEq

/-- Embeds `DefaultStrategy._compress_history` from
`deepseek_chat/agents/strategies.py` (the identical code also appears in both
`general_agent.py` files): return untouched when `len(messages) <= keep_count`;
otherwise run the summarization call; on a transport error the exception
propagates (second component true) with the session unchanged; on success the
joined, stripped text updates the session through `apply_compression` only
when it is non-empty. -/
def compressRun (cfg : AgentConfig) (s : ChatSessionX) (call : CallOutcome) :
    ChatSessionX × Bool :=
  if s.messages.length ≤ cfg.compressionKeep then (s, false)
  else
    match call with
    | .err _ => (s, true)
    | .ok chunks =>
        let newSummary := pyStrip (String.join chunks)
        (if newSummary ≠ "" then s.applyCompression newSummary cfg.compressionKeep else s,
         false)

/-- Embeds `FactsStrategy._extract_facts` from
`deepseek_chat/agents/strategies.py` (also in `general_agent.py`): act only
when the last stored message is a user turn; a transport error propagates; a
successful call replaces `facts` with the joined, stripped text when it is
non-empty. -/
def extractRun (s : ChatSessionX) (call : CallOutcome) : ChatSessionX × Bool :=
  match s.messages.getLast? with
  | none => (s, false)
  | some m =>
      if m.role = "user" then
        match call with
        | .err _ => (s, true)
        | .ok chunks =>
            let newFacts := pyStrip (String.join chunks)
            (if newFacts ≠ "" then { s with facts := newFacts } else s, false)
      else (s, false)

/-- C3 counterexample input: compression keep bound of 1. -/
def c3Config : AgentConfig :=
  { compressionEnabled := true, compressionThreshold := 0, compressionKeep := 1 }

/-- C3 counterexample input: a session holding three turns. -/
def c3Session : ChatSessionX :=
  { messages := [⟨"user", "q1"⟩, ⟨"assistant", "a1"⟩, ⟨"user", "q2"⟩],
    maxMessages := 40, summary := "old", facts := "" }

/-- C3: when the summarization call returns only whitespace, the code skips
`apply_compression` entirely (`if new_summary:` guards the only call), so the
turn list is NOT truncated to `keep_count`: with keep_count 1 and three stored
turns, all three turns survive, refuting the claimed truncation. -/
theorem c3_empty_summary_counterexample :
    compressRun c3Config c3Session (.ok [" "]) = (c3Session, false) ∧
    c3Session.messages.length = 3 ∧ c3Config.compressionKeep = 1 := by
  decide

/-- C3 (amended): a summarization result that strips to the empty string makes
the whole compression run a no-op — the summary is left unchanged AND the turn
list is left untruncated, because `apply_compression` is never reached. -/
theorem c3_empty_summary_noop (cfg : AgentConfig) (s : ChatSessionX)
    (chunks : List String) (h : pyStrip (String.join chunks) = "") :
    compressRun cfg s (.ok chunks) = (s, false) := by
  unfold compressRun
  by_cases hlen : s.messages.length ≤ cfg.compressionKeep
  · rw [if_pos hlen]
  · rw [if_neg hlen]
    simp [h]

/-- C3 witness: a single all-whitespace chunk leaves the session untouched. -/
theorem c3_empty_summary_noop_witness :
    compressRun c3Config c3Session (.ok ["  "]) = (c3Session, false) :=
  c3_empty_summary_noop c3Config c3Session ["  "] (by decide)

/-- The compress notice yielded by `stream_reply` before summarizing. -/
def compressNotice : String :=
  "\n*[System: Сжимаю старый контекст для экономии токенов...]*\n\n"

/-- The facts notice yielded by `stream_reply` before extracting facts. -/
def factsNotice : String :=
  "\n*[System: Извлекаю и обновляю факты...]*\n\n"

/-- Result of one `stream_reply` turn: the chunks yielded to the caller, the
session state when the generator finishes or raises, and whether an exception
propagated to the caller. -/
structure TurnResult where
  events : List String
  session : ChatSessionX
  errored : Bool
deriving DecidableEq

/-- Embeds the pre-streaming phase of `GeneralAgent.stream_reply` in
`deepseek_chat/agents/general_agent.py` (lines 114 to 129): record the user
turn, then for the default/branching strategies run compression when enabled
and the user-turn count exceeds the threshold, and for the facts strategy run
fact extraction; each side call may raise, which aborts the turn with the
session unchanged by that call. -/
def prepPhase (cfg : AgentConfig) (strategy userInput : String)
    (side : CallOutcome) (s : ChatSessionX) : TurnResult :=
  let s1 := s.addUser userInput
  let userMsgCount := (s1.messages.filter (fun m => m.role = "user")).length
  let isDefaultOrBranching := strategy = "default" ∨ strategy = "branching"
  if isDefaultOrBranching ∧ cfg.compressionEnabled ∧
      cfg.compressionThreshold < userMsgCount then
    match compressRun cfg s1 side with
    | (s2, e) => ⟨[compressNotice], s2, e⟩
  else if strategy = "facts" then
    match extractRun s1 side with
    | (s2, e) => ⟨[factsNotice], s2, e⟩
  else ⟨[], s1, false⟩

/-- Embeds `GeneralAgent._generate_session_title` together with its call site
(lines 181 to 213): only when the total message count is 2 or 4 and the
summary is empty, run a best-effort title call whose failures are swallowed by
the `try/except` around it; a successful result is stripped of whitespace and
then of double and single quotes and stored into the summary when non-empty. -/
def runTitle (call : CallOutcome) (s : ChatSessionX) : ChatSessionX :=
  if (s.messages.length = 2 ∨ s.messages.length = 4) ∧ s.summary = "" then
    if s.messages = [] then s
    else
      match call with
      | .err _ => s
      | .ok chunks =>
          let newTitle :=
            pyStripChar (Char.ofNat 39)
              (pyStripChar (Char.ofNat 34) (pyStrip (String.join chunks)))
          if newTitle ≠ "" then { s with summary := newTitle } else s
  else s

/-- Embeds `GeneralAgent.stream_reply` of
`deepseek_chat/agents/general_agent.py` as a function of the transport
behaviour: after the prepare phase, the main streaming call yields its chunks
to the caller as they arrive; if the transport raises mid-stream the exception
propagates immediately and the code after the loop (lines 166 to 183) never
runs; on normal completion the joined, stripped response is committed as an
assistant turn when non-empty and the title policy runs.  Request building
and token counting are omitted: they influence neither the session state nor
the yielded chunks nor error propagation. -/
def streamReply (cfg : AgentConfig) (strategy userInput : String)
    (side main title : CallOutcome) (s : ChatSessionX) : TurnResult :=
  let p := prepPhase cfg strategy userInput side s
  if p.errored then p
  else
    match main with
    | .err chunks => ⟨p.events ++ chunks, p.session, true⟩
    | .ok chunks =>
        let response := pyStrip (String.join chunks)
        let s3 := if response ≠ "" then p.session.addAssistant response else p.session
        ⟨p.events ++ chunks, runTitle title s3, false⟩

/-- C4 counterexample input: compression disabled, plenty of capacity. -/
def c4Config : AgentConfig :=
  { compressionEnabled := false, compressionThreshold := 3, compressionKeep := 2 }

/-- C4 counterexample input: a fresh session. -/
def c4Session : ChatSessionX :=
  { messages := [], maxMessages := 40, summary := "", facts := "" }

/-- C4: there is no try/finally around the streaming loop of `stream_reply`,
so when the transport yields "Hello" and then raises, the commit code after
the loop never runs: the session holds only the user turn and no assistant
turn with content "Hello" exists, refuting the claimed partial-text commit. -/
theorem c4_partial_commit_counterexample :
    (streamReply c4Config "default" "hi" (.ok []) (.err ["Hello"]) (.ok []) c4Session).errored
        = true ∧
    (streamReply c4Config "default" "hi" (.ok []) (.err ["Hello"]) (.ok []) c4Session).session.messages
        = [⟨"user", "hi"⟩] ∧
    Message.mk "assistant" "Hello" ∉
      (streamReply c4Config "default" "hi" (.ok []) (.err ["Hello"]) (.ok []) c4Session).session.messages := by
  decide

/-- C4 (amended): when the main transport call raises after yielding some
chunks, the accumulated partial text is discarded, not committed: the turn
ends in an error with the session exactly as the prepare phase left it (the
user turn recorded, no assistant turn appended), while the already-yielded
chunks had reached the caller; assistant text is committed only when the
stream completes without raising. -/
theorem c4_partial_text_discarded (cfg : AgentConfig) (strategy userInput : String)
    (side : CallOutcome) (chunks : List String) (title : CallOutcome)
    (s : ChatSessionX) (hprep : (prepPhase cfg strategy userInput side s).errored = false) :
    streamReply cfg strategy userInput side (.err chunks) title s =
      ⟨(prepPhase cfg strategy userInput side s).events ++ chunks,
       (prepPhase cfg strategy userInput side s).session, true⟩ := by
  unfold streamReply
  simp only [hprep]
  rfl

/-- C4 witness: the concrete "Hello" scenario of the claim. -/
theorem c4_partial_text_discarded_witness :
    streamReply c4Config "default" "hi" (.ok []) (.err ["Hello"]) (.ok []) c4Session =
      ⟨(prepPhase c4Config "default" "hi" (.ok []) c4Session).events ++ ["Hello"],
       (prepPhase c4Config "default" "hi" (.ok []) c4Session).session, true⟩ :=
  c4_partial_text_discarded c4Config "default" "hi" (.ok []) ["Hello"] (.ok [])
    c4Session (by decide)

theorem join_nil_title_empty :
    pyStripChar (Char.ofNat 39)
      (pyStripChar (Char.ofNat 34) (pyStrip (String.join ([] : List String)))) = "" := by
  decide

theorem runTitle_err_eq_ok_nil (cs : List String) (t : ChatSessionX) :
    runTitle (.err cs) t = runTitle (.ok []) t := by
  unfold runTitle
  by_cases h1 : (t.messages.length = 2 ∨ t.messages.length = 4) ∧ t.summary = ""
  · rw [if_pos h1, if_pos h1]
    by_cases h2 : t.messages = []
    · rw [if_pos h2, if_pos h2]
    · rw [if_neg h2, if_neg h2]
      simp [join_nil_title_empty]
  · rw [if_neg h1, if_neg h1]

theorem addUserX_getLast (s : ChatSessionX) (inp : String) :
    (s.addUser inp).messages.getLast? = some ⟨"user", inp⟩ := by
  show (listTrim s.maxMessages (s.messages ++ [⟨"user", inp⟩])).getLast? = _
  unfold listTrim pyTakeLast
  split
  · split
    · exact List.getLast?_concat _
    · rename_i hlt hne
      have hk : (s.messages ++ [Message.mk "user" inp]).length - s.maxMessages ≤
          s.messages.length := by
        simp only [List.length_append, List.length_cons, List.length_nil]
        omega
      rw [List.drop_append_of_le_length hk]
      exact List.getLast?_concat _
  · exact List.getLast?_concat _

/-- C5 counterexample input: compression enabled with threshold 0, keep 1. -/
def c5Config : AgentConfig :=
  { compressionEnabled := true, compressionThreshold := 0, compressionKeep := 1 }

/-- C5 counterexample input: a session already holding three turns. -/
def c5Session : ChatSessionX :=
  { messages := [⟨"user", "q1"⟩, ⟨"assistant", "a1"⟩, ⟨"user", "q2"⟩],
    maxMessages := 40, summary := "", facts := "" }

/-- C5: `_compress_history` has no try/except, so a transport error inside the
summarization side call propagates out of `stream_reply`: the turn ends in an
error and the main reply (which would have streamed "r") never proceeds,
refuting the claim for the summarization side call. -/
theorem c5_side_error_counterexample :
    (streamReply c5Config "default" "q3" (.err []) (.ok ["r"]) (.ok []) c5Session).errored
        = true ∧
    "r" ∉ (streamReply c5Config "default" "q3" (.err []) (.ok ["r"]) (.ok []) c5Session).events := by
  decide

/-- C5 (amended): only title generation is shielded by a try/except — a title
transport failure is fully swallowed, equivalent to the call returning nothing;
transport errors inside the summarization side call (once its length guard
lets the call happen) and inside the fact-extraction side call propagate out
of the turn, aborting the main reply. -/
theorem c5_side_effect_error_handling :
    (∀ (cfg : AgentConfig) (strategy userInput : String) (side main : CallOutcome)
        (cs : List String) (s : ChatSessionX),
        streamReply cfg strategy userInput side main (.err cs) s =
          streamReply cfg strategy userInput side main (.ok []) s) ∧
    (∀ (cfg : AgentConfig) (strategy userInput : String) (cs : List String)
        (main title : CallOutcome) (s : ChatSessionX),
        (strategy = "default" ∨ strategy = "branching") →
        cfg.compressionEnabled = true →
        cfg.compressionThreshold <
          ((s.addUser userInput).messages.filter (fun m => m.role = "user")).length →
        cfg.compressionKeep < (s.addUser userInput).messages.length →
        (streamReply cfg strategy userInput (.err cs) main title s).errored = true) ∧
    (∀ (cfg : AgentConfig) (userInput : String) (cs : List String)
        (main title : CallOutcome) (s : ChatSessionX),
        (streamReply cfg "facts" userInput (.err cs) main title s).errored = true) := by
  refine ⟨?_, ?_, ?_⟩
  · intro cfg strategy userInput side main cs s
    unfold streamReply
    cases hp : (prepPhase cfg strategy userInput side s).errored
    · cases main with
      | err mcs => simp [hp]
      | ok mcs => simp [hp, runTitle_err_eq_ok_nil]
    · simp [hp]
  · intro cfg strategy userInput cs main title s hstrat hen hth hkeep
    have hnle : ¬ (s.addUser userInput).messages.length ≤ cfg.compressionKeep :=
      Nat.not_le.mpr hkeep
    rcases hstrat with h | h <;> subst h <;>
      simp [streamReply, prepPhase, compressRun, hen, hth, hnle]
  · intro cfg userInput cs main title s
    have hlast := addUserX_getLast s userInput
    have hne1 : ¬ (("facts" : String) = "default") := by decide
    have hne2 : ¬ (("facts" : String) = "branching") := by decide
    simp [streamReply, prepPhase, extractRun, hlast, hne1, hne2]

/-- C5 witness: the summarization side call fails on a session with three
stored turns and compression due, and the turn errors out. -/
theorem c5_side_effect_error_handling_witness :
    (streamReply c5Config "default" "q3" (.err ["partial"]) (.ok ["reply"]) (.ok [])
        c5Session).errored = true :=
  c5_side_effect_error_handling.2.1 c5Config "default" "q3" ["partial"] (.ok ["reply"])
    (.ok []) c5Session (Or.inl rfl) rfl (by decide) (by decide)

/-- Embeds `WindowStrategy.build_history_messages` from
`deepseek_chat/agents/strategies.py`: the system message followed by the slice
`self._session.messages()[-self.window_size:]`. -/
def buildHistoryWindowMessages (windowSize : Nat) (systemPrompt : String)
    (s : ChatSessionX) : List Message :=
  ⟨"system", systemPrompt⟩ :: pyTakeLast windowSize s.messages

/-- C7 counterexample input: one stored turn. -/
def c7Session : ChatSessionX :=
  { messages := [⟨"user", "q1"⟩], maxMessages := 40, summary := "", facts := "" }

/-- C7: the claim quantifies over every window size, but with
`window_size = 0` the Python slice `messages[-0:]` keeps every stored turn, so
the built history has length 2 instead of `min(0, 1) + 1 = 1`. -/
theorem c7_window_counterexample :
    (buildHistoryWindowMessages 0 "sys" c7Session).length ≠
      min 0 c7Session.messages.length + 1 := by
  decide

/-- C7 (amended): for every window size `w ≥ 1`, the built history is the
system message followed by exactly the last `w` stored turns in order (a
strict trailing slice, no summary or facts message), so its length is
`min(w, len(turns)) + 1`. -/
theorem c7_window_build_history (w : Nat) (hw : 1 ≤ w) (systemPrompt : String)
    (s : ChatSessionX) :
    buildHistoryWindowMessages w systemPrompt s =
      ⟨"system", systemPrompt⟩ :: s.messages.drop (s.messages.length - w) ∧
    (buildHistoryWindowMessages w systemPrompt s).length =
      min w s.messages.length + 1 := by
  have hw0 : w ≠ 0 := Nat.one_le_iff_ne_zero.mp hw
  constructor
  · unfold buildHistoryWindowMessages
    rw [pyTakeLast_pos w hw0]
  · unfold buildHistoryWindowMessages
    rw [pyTakeLast_pos w hw0]
    simp only [List.length_cons, List.length_drop]
    omega

/-- C7 witness: window size 2 over a three-turn session keeps the last two. -/
theorem c7_window_build_history_witness :
    buildHistoryWindowMessages 2 "sys" c5Session =
      ⟨"system", "sys"⟩ :: c5Session.messages.drop (c5Session.messages.length - 2) ∧
    (buildHistoryWindowMessages 2 "sys" c5Session).length =
      min 2 c5Session.messages.length + 1 :=
  c7_window_build_history 2 (by decide) "sys" c5Session

/-- The token-count record of `deepseek_console_app/token_counter.py`. -/
structure TokenCount where
  tokens : Nat
  method : String
deriving DecidableEq

theorem natCeil_div_four (l : Nat) : ⌈(l : ℚ) / 4⌉₊ = (l + 3) / 4 := by
  rcases Nat.eq_zero_or_pos l with h | h
  · subst h
    norm_num
  · have h4 : (l + 3) / 4 ≠ 0 := by omega
    rw [Nat.ceil_eq_iff h4]
    constructor
    · rw [lt_div_iff₀ (by norm_num : (0 : ℚ) < 4)]
      exact_mod_cast (by omega : ((l + 3) / 4 - 1) * 4 < l)
    · rw [div_le_iff₀ (by norm_num : (0 : ℚ) < 4)]
      exact_mod_cast (by omega : l ≤ ((l + 3) / 4) * 4)

/-- Embeds `count_text_tokens` of `deepseek_console_app/token_counter.py` in
the branch where no precise tokenizer is available (`_try_get_tiktoken_encoder`
returned None): empty text short-circuits to zero heuristic tokens, otherwise
the heuristic is the ceiling of a quarter of the character count, at least 1.
The function is total, so it never throws. -/
def countTextTokens (text : String) : TokenCount :=
  if text = "" then ⟨0, "heuristic"⟩
  else ⟨max 1 ⌈(text.length : ℚ) / 4⌉₊, "heuristic"⟩

/-- C6: with no precise tokenizer, `count_text_tokens` is total and returns
zero heuristic tokens for empty input and `max(1, ceil(len(text)/4))`
heuristic tokens for non-empty input (equivalently `max(1, (len+3) div 4)`);
in particular "abcd" yields exactly one heuristic token. -/
theorem c6_count_text_tokens :
    (∀ text : String, (countTextTokens text).method = "heuristic") ∧
    countTextTokens "" = ⟨0, "heuristic"⟩ ∧
    (∀ text : String,
        (countTextTokens text).tokens =
          if text = "" then 0 else max 1 ⌈(text.length : ℚ) / 4⌉₊) ∧
    (∀ text : String,
        (countTextTokens text).tokens =
          if text = "" then 0 else max 1 ((text.length + 3) / 4)) ∧
    countTextTokens "abcd" = ⟨1, "heuristic"⟩ := by
  refine ⟨?_, by decide, ?_, ?_, ?_⟩
  · intro text
    by_cases h : text = "" <;> simp [countTextTokens, h]
  · intro text
    by_cases h : text = "" <;> simp [countTextTokens, h]
  · intro text
    by_cases h : text = "" <;> simp [countTextTokens, h, natCeil_div_four]
  · have : ⌈(("abcd" : String).length : ℚ) / 4⌉₊ = 1 := by
      rw [natCeil_div_four]
      decide
    simp [countTextTokens, this]

/-- A JSON value, the decoded result of `json.load`/`json.dump`. -/
inductive JVal where
  | jnull
  | jbool (b : Bool)
  | jnum (n : Int)
  | jstr (s : String)
  | jarr (items : List JVal)
  | jobj (fields : List (String × JVal))

/-- Dictionary lookup `d.get(key)` over the field list of a JSON object. -/
def jLookup : List (String × JVal) → String → Option JVal
  | [], _ => none
  | (k, v) :: rest, key => if k = key then some v else jLookup rest key

/-- Membership test for the message filter of `ChatSession.load`: an item is
kept when it is a dict whose "role" is the string "user" or "assistant" and
whose "content" is a string. -/
def validMsg : JVal → Option Message
  | .jobj fields =>
      match jLookup fields "role", jLookup fields "content" with
      | some (.jstr r), some (.jstr c) =>
          if r = "user" ∨ r = "assistant" then some ⟨r, c⟩ else none
      | _, _ => none
  | _ => none

/-- JSON rendering of one stored message, as written by `ChatSession.save`. -/
def msgToJVal (m : Message) : JVal :=
  .jobj [("role", .jstr m.role), ("content", .jstr m.content)]

/-- Embeds the payload dict built by `ChatSession.save` in
`deepseek_console_app/core/session.py` (the timestamp comes from the wall
clock, modelled as a parameter). -/
def savePayload (s : ChatSession) (provider model : Option String)
    (updatedAt : String) : JVal :=
  .jobj [("format_version", .jnum 1),
         ("provider", .jstr (provider.getD "")),
         ("model", .jstr (model.getD "")),
         ("updated_at", .jstr updatedAt),
         ("summary", .jstr s.summary),
         ("messages", .jarr (s.messages.map msgToJVal))]

/-- Object test: `payload.get(...)` only exists when `json.load` decoded a
dict; on any other decoded value Python raises AttributeError. -/
def jIsObj : JVal → Bool
  | .jobj _ => true
  | _ => false

/-- Embeds `ChatSession.load` of `deepseek_console_app/core/session.py` as a
function of the file-read outcome: `none` models FileNotFoundError (return,
session untouched); `some (.error ())` models a json.JSONDecodeError (messages
and summary reset); `some (.ok v)` models a decoded value `v`, on which
`payload.get` raises AttributeError unless `v` is an object.  On an object,
`summary` takes the "summary" value (empty when absent; a decoded non-string
there would be stored raw by Python, which sessions written by `save` never
produce — modelled as the empty string), and "messages" replaces the message
list with its valid entries followed by `_trim` whenever it is a list
(missing defaults to the empty list; a non-list leaves the messages alone). -/
def loadSession (s : ChatSession) (file : Option (Except Unit JVal)) :
    Except Unit ChatSession :=
  match file with
  | none => .ok s
  | some (.error _) => .ok { s with messages := [], summary := "" }
  | some (.ok (.jobj fields)) =>
      let newSummary :=
        match jLookup fields "summary" with
        | some (.jstr t) => t
        | some _ => ""
        | none => ""
      let s1 := { s with summary := newSummary }
      match jLookup fields "messages" with
      | some (.jarr items) =>
          .ok { s1 with messages := listTrim s1.maxMessages (items.filterMap validMsg) }
      | some _ => .ok s1
      | none => .ok { s1 with messages := listTrim s1.maxMessages ([] : List Message) }
  | some (.ok _) => .error ()

theorem listTrim_noop {α : Type} (m : Nat) (xs : List α) (h : xs.length ≤ m) :
    listTrim m xs = xs := by
  unfold listTrim
  rw [if_neg (Nat.not_lt.mpr h)]

theorem filterMap_validMsg_map (ms : List Message)
    (h : ∀ m ∈ ms, m.role = "user" ∨ m.role = "assistant") :
    (ms.map msgToJVal).filterMap validMsg = ms := by
  induction ms with
  | nil => rfl
  | cons m rest ih =>
    have hm := h m (List.mem_cons_self m rest)
    have hrest : ∀ x ∈ rest, x.role = "user" ∨ x.role = "assistant" :=
      fun x hx => h x (List.mem_cons_of_mem m hx)
    have hv : validMsg (msgToJVal m) = some m := by
      simp [validMsg, msgToJVal, jLookup, hm]
    simp only [List.map_cons, List.filterMap_cons, hv]
    rw [ih hrest]

/-- C8: saving a session and loading the payload into a fresh session of the
same capacity reproduces the summary and the full message sequence exactly
(the class persists no separate facts field, so the facts clause is vacuous
for it).  The hypotheses are the class invariants: every stored role is user
or assistant and the message count respects the capacity. -/
theorem c8_save_load_roundtrip (s : ChatSession) (provider model : Option String)
    (updatedAt : String)
    (hroles : ∀ m ∈ s.messages, m.role = "user" ∨ m.role = "assistant")
    (hlen : s.messages.length ≤ s.maxMessages) :
    loadSession (ChatSession.new s.maxMessages)
        (some (.ok (savePayload s provider model updatedAt))) =
      .ok { messages := s.messages, maxMessages := s.maxMessages,
            summary := s.summary } := by
  have hred : loadSession (ChatSession.new s.maxMessages)
      (some (.ok (savePayload s provider model updatedAt))) =
      .ok { messages := listTrim s.maxMessages
              ((s.messages.map msgToJVal).filterMap validMsg),
            maxMessages := s.maxMessages, summary := s.summary } := rfl
  rw [hred, filterMap_validMsg_map s.messages hroles, listTrim_noop _ _ hlen]

/-- C8 witness input: a two-turn session with a summary. -/
def c8Session : ChatSession :=
  { messages := [⟨"user", "hi"⟩, ⟨"assistant", "yo"⟩], maxMessages := 40,
    summary := "sum" }

/-- C8 witness: the concrete round trip on a two-turn session. -/
theorem c8_save_load_roundtrip_witness :
    loadSession (ChatSession.new c8Session.maxMessages)
        (some (.ok (savePayload c8Session (some "deepseek") (some "deepseek-chat")
          "2026-01-01T00:00:00Z"))) =
      .ok { messages := c8Session.messages, maxMessages := c8Session.maxMessages,
            summary := c8Session.summary } :=
  c8_save_load_roundtrip c8Session (some "deepseek") (some "deepseek-chat")
    "2026-01-01T00:00:00Z" (by decide) (by decide)

/-- C9: a file whose contents decode to a JSON value that is not an object
(for example the valid JSON text holding an empty array) makes `load` raise
AttributeError at `payload.get`, rather than resetting the session — refuting
the claim that corrupt contents never propagate an error. -/
theorem c9_load_counterexample :
    loadSession (ChatSession.new 40) (some (.ok (.jarr []))) = .error () ∧
    loadSession (ChatSession.new 40) (some (.ok (.jarr []))) ≠
      .ok { ChatSession.new 40 with messages := [], summary := "" } := by
  constructor
  · rfl
  · intro h
    rw [show loadSession (ChatSession.new 40) (some (.ok (.jarr []))) = .error ()
        from rfl] at h
    exact Except.noConfusion h

/-- C9 (amended): a missing file leaves the session untouched (so an empty
session stays empty), and contents that fail JSON decoding reset the session
to the empty state instead of propagating the parse failure; but contents that
decode to a non-object value raise AttributeError out of `load`. -/
theorem c9_load_error_tolerance :
    (∀ s : ChatSession, loadSession s none = .ok s) ∧
    (∀ s : ChatSession, loadSession s (some (.error ())) =
        .ok { s with messages := [], summary := "" }) ∧
    (∀ (s : ChatSession) (v : JVal), jIsObj v = false →
        loadSession s (some (.ok v)) = .error ()) := by
  refine ⟨fun s => rfl, fun s => rfl, ?_⟩
  intro s v h
  cases v with
  | jobj fields => exact absurd h (by simp [jIsObj])
  | jnull => rfl
  | jbool b => rfl
  | jnum n => rfl
  | jstr t => rfl
  | jarr items => rfl

/-- C9 witness: loading a decoded bare number raises. -/
theorem c9_load_error_tolerance_witness :
    loadSession (ChatSession.new 1) (some (.ok (.jnum 5))) = .error () :=
  c9_load_error_tolerance.2.2 (ChatSession.new 1) (.jnum 5) rfl

/-- Pricing configuration of `DeepSeekClient` (floats modelled as rationals). -/
structure ClientPricing where
  pricePer1kPromptUsd : ℚ
  pricePer1kCompletionUsd : ℚ
deriving DecidableEq

/-- The token-usage dict reported by the upstream service; each field models
`usage.get(...)`, absent keys giving `none`. -/
structure Usage where
  promptTokens : Option Int
  completionTokens : Option Int
  totalTokens : Option Int
deriving DecidableEq

/-- The `StreamMetrics` dataclass of `deepseek_console_app/client.py`. -/
structure StreamMetrics where
  durationSeconds : ℚ
  promptTokens : Option Int
  completionTokens : Option Int
  totalTokens : Option Int
  costUsd : Option ℚ
deriving DecidableEq

/-- Decoded fields of one chat-completion SSE event: the truthy "usage" dict
if any, and the delta content if any. -/
structure ChatEvent where
  usage : Option Usage
  content : Option String
deriving DecidableEq

/-- One line of the upstream byte stream after decode and strip: skipped
(blank or without the data marker), the terminator, an undecodable payload, or
a decoded event. -/
inductive SseLine where
  | skip
  | done
  | malformed
  | ev (e : ChatEvent)
deriving DecidableEq

/-- How one `stream_message` call ends: the upstream lines are exhausted (or
the terminator was hit), the transport raises mid-iteration, or the consumer
closes the generator (cancellation); in each case the `finally` block runs. -/
inductive StreamEnd where
  | completed
  | raised
  | closed
deriving DecidableEq

/-- An abstract HTTP response: a non-200 status raises immediately after the
body is classified; a 200 status streams `lines` and then ends as `endKind`
says. -/
structure HttpResp where
  status : Nat
  body : String
  lines : List SseLine
  endKind : StreamEnd
deriving DecidableEq

/-- Embeds the line loop of `stream_message`: walk the lines accumulating
yielded content chunks and the last truthy usage dict, stopping at the
terminator.  Falsy (empty) content is not yielded, matching `if content:`. -/
def processLines (acc : List String) (usage : Option Usage) :
    List SseLine → List String × Option Usage
  | [] => (acc, usage)
  | .done :: _ => (acc, usage)
  | .skip :: rest => processLines acc usage rest
  | .malformed :: rest => processLines acc usage rest
  | .ev e :: rest =>
      processLines
        (match e.content with
         | some c => if c ≠ "" then acc ++ [c] else acc
         | none => acc)
        (match e.usage with
         | some u => some u
         | none => usage)
        rest

/-- Substring test over character lists, for the error-body classification. -/
def hasSubstr (hay pat : List Char) : Bool :=
  match hay with
  | [] => pat.isEmpty
  | _ :: t => pat.isPrefixOf hay || hasSubstr t pat

/-- Embeds the non-200 body classification of `stream_message`: the lowered
body indicates a context-length failure through any of the four substring
checks of the source. -/
def bodyIndicatesContextLength (body : String) : Bool :=
  let lowered := body.toList.map Char.toLower
  hasSubstr lowered ("context_length".toList) ||
    (hasSubstr lowered ("context".toList) && hasSubstr lowered ("length".toList)) ||
    (hasSubstr lowered ("context".toList) && hasSubstr lowered ("window".toList)) ||
    (hasSubstr lowered ("tokens".toList) && hasSubstr lowered ("limit".toList))

/-- Embeds the `finally` block of `stream_message` (client.py lines 102 to
120): the metrics record always stores the measured duration and the usage
numbers seen so far, and the USD cost is derived exactly when both the prompt
and the completion token counts were reported. -/
def finalMetrics (pricing : ClientPricing) (duration : ℚ) (usage : Option Usage) :
    StreamMetrics :=
  { durationSeconds := duration,
    promptTokens := usage.bind (fun u => u.promptTokens),
    completionTokens := usage.bind (fun u => u.completionTokens),
    totalTokens := usage.bind (fun u => u.totalTokens),
    costUsd :=
      match usage.bind (fun u => u.promptTokens), usage.bind (fun u => u.completionTokens) with
      | some p, some c =>
          some ((p : ℚ) / 1000 * pricing.pricePer1kPromptUsd +
                (c : ℚ) / 1000 * pricing.pricePer1kCompletionUsd)
      | _, _ => none }

/-- The observable outcome of one `stream_message` call: the yielded chunks,
whether an exception propagated to the caller, whether it was classified as a
context-length error, and the `_last_metrics` record set by the finally. -/
structure StreamRun where
  chunks : List String
  raised : Bool
  contextLengthError : Bool
  metrics : StreamMetrics
deriving DecidableEq

/-- Embeds `DeepSeekClient.stream_message` as a function of the abstract HTTP
response and the measured wall-clock duration: a non-200 status raises (with
the context-length classification of the body) before any chunk is yielded;
a 200 status streams the processed lines; in every case — completion,
mid-stream transport error, or consumer cancellation — the finally block
computes `_last_metrics` from the usage accumulated so far. -/
def runStreamMessage (pricing : ClientPricing) (resp : HttpResp) (duration : ℚ) :
    StreamRun :=
  if resp.status ≠ 200 then
    { chunks := [],
      raised := true,
      contextLengthError := bodyIndicatesContextLength resp.body,
      metrics := finalMetrics pricing duration none }
  else
    { chunks := (processLines [] none resp.lines).1,
      raised := match resp.endKind with | .raised => true | _ => false,
      contextLengthError := false,
      metrics := finalMetrics pricing duration (processLines [] none resp.lines).2 }

theorem finalMetrics_spec (pricing : ClientPricing) (duration : ℚ)
    (usage : Option Usage) :
    (finalMetrics pricing duration usage).durationSeconds = duration ∧
    ((finalMetrics pricing duration usage).costUsd.isSome ↔
      ((finalMetrics pricing duration usage).promptTokens.isSome ∧
       (finalMetrics pricing duration usage).completionTokens.isSome)) ∧
    (∀ p c : Int,
        (finalMetrics pricing duration usage).promptTokens = some p →
        (finalMetrics pricing duration usage).completionTokens = some c →
        (finalMetrics pricing duration usage).costUsd =
          some ((p : ℚ) / 1000 * pricing.pricePer1kPromptUsd +
                (c : ℚ) / 1000 * pricing.pricePer1kCompletionUsd)) := by
  refine ⟨rfl, ?_, ?_⟩
  · cases hp : usage.bind (fun u => u.promptTokens) <;>
      cases hc : usage.bind (fun u => u.completionTokens) <;>
      simp [finalMetrics, hp, hc]
  · intro p c hp hc
    have hp' : usage.bind (fun u => u.promptTokens) = some p := hp
    have hc' : usage.bind (fun u => u.completionTokens) = some c := hc
    simp [finalMetrics, hp', hc']

/-- C10: after every `stream_message` call — normal completion, consumer
cancellation, a mid-stream transport error, or a non-2xx response — the
metrics record set by the finally block carries the measured duration, and its
cost field is populated exactly when the upstream reported both prompt and
completion token counts, in which case it equals
`(prompt/1000) * price_per_1k_prompt_usd + (completion/1000) * price_per_1k_completion_usd`. -/
theorem c10_last_metrics_always_populated (pricing : ClientPricing)
    (resp : HttpResp) (duration : ℚ) :
    (runStreamMessage pricing resp duration).metrics.durationSeconds = duration ∧
    ((runStreamMessage pricing resp duration).metrics.costUsd.isSome ↔
      ((runStreamMessage pricing resp duration).metrics.promptTokens.isSome ∧
       (runStreamMessage pricing resp duration).metrics.completionTokens.isSome)) ∧
    (∀ p c : Int,
        (runStreamMessage pricing resp duration).metrics.promptTokens = some p →
        (runStreamMessage pricing resp duration).metrics.completionTokens = some c →
        (runStreamMessage pricing resp duration).metrics.costUsd =
          some ((p : ℚ) / 1000 * pricing.pricePer1kPromptUsd +
                (c : ℚ) / 1000 * pricing.pricePer1kCompletionUsd)) := by
  unfold runStreamMessage
  by_cases hs : resp.status ≠ 200
  · rw [if_pos hs]
    exact finalMetrics_spec pricing duration none
  · rw [if_neg hs]
    exact finalMetrics_spec pricing duration (processLines [] none resp.lines).2

/-- C10 witness input: pricing of 2 and 3 USD per thousand tokens. -/
def c10Pricing : ClientPricing :=
  { pricePer1kPromptUsd := 2, pricePer1kCompletionUsd := 3 }

/-- C10 witness input: a cancelled stream that saw one event with usage. -/
def c10Resp : HttpResp :=
  { status := 200, body := "",
    lines := [.ev { usage := some { promptTokens := some 100,
                                    completionTokens := some 50,
                                    totalTokens := some 150 },
                    content := some "hi" }],
    endKind := .closed }

/-- C10 witness: a cancelled call with reported usage yields the exact cost. -/
theorem c10_last_metrics_always_populated_witness :
    (runStreamMessage c10Pricing c10Resp 1).metrics.costUsd =
      some (((100 : Int) : ℚ) / 1000 * c10Pricing.pricePer1kPromptUsd +
            ((50 : Int) : ℚ) / 1000 * c10Pricing.pricePer1kCompletionUsd) :=
  (c10_last_metrics_always_populated c10Pricing c10Resp 1).2.2 100 50 rfl rfl
